import Mathlib

set_option autoImplicit false

/-!
Verification of the Solid storage-action lifecycle and mount-table caches.

This file gives a shallow embedding of two parts of the repository:

* the UDisks2 `StorageAccess` setup/teardown/unlock lifecycle from
  `src/solid/devices/backends/udisks2/udisksstorageaccess.cpp`, and
* the fstab/mtab mount-table cache (`FstabHandling`) from
  `src/solid/devices/backends/fstab/fstabhandling.cpp`.

Member functions become Lean functions over an explicit state record; the
externally observable side effects (D-Bus calls, broadcasts, signal
emissions) become an explicit event trace.  The D-Bus world that the code
queries (device properties, the introspected cleartext sibling path, the
mount state) is an explicit environment record; it may differ at every
asynchronous step, which models property changes between callbacks.
-/

namespace UDisks2

/-- Domain error kinds (`Solid::ErrorType`) as far as the lifecycle uses
them: success, the user-canceled error produced by an empty passphrase
reply, and the image of `errorToSolidError` for a platform error name. -/
inductive SolidErr where
  | noError
  | userCanceled
  | mapped (code : String)
deriving DecidableEq

/-- The four asynchronous daemon calls issued through `callWithCallback`,
whose completion is later delivered to `slotDBusReply`/`slotDBusError`.
`Eject`/`PowerOff` are fire-and-forget (`QDBus::NoBlock`) and never pend. -/
inductive PendKind where
  | mount
  | unmount
  | unlock
  | lock
deriving DecidableEq

/-- The external facts the code reads over D-Bus: device properties, the
result of the blocking cleartext-sibling introspection, the mount state of
the device and of its cleartext sibling, parent-drive properties, and
whether D-Bus dispatch (session dialog, system bus) succeeds. -/
structure Env where
  udi : String
  isEncryptedContainer : Bool
  clearTextPath : String
  deviceMounted : Bool
  cleartextMounted : Bool
  idType : String
  drivePath : String
  cryptoBackingDevice : String
  mediaRemovable : Bool
  mediaAvailable : Bool
  canPowerOff : Bool
  isOpticalDisc : Bool
  dialogOk : Bool
  sysBusOk : Bool
deriving DecidableEq

/-- Observable events: in-process broadcasts (`broadcastActionRequested`,
`broadcastActionDone`), the `accessibilityChanged` signal, asynchronous
daemon calls with a completion callback (`call`), fire-and-forget daemon
calls (`callNoBlock`), the passphrase dialog request, property-cache
invalidation, and markers recording that the pending call of the given
kind completed successfully (`replyOk`) or with an error (`replyErr`). -/
inductive Ev where
  | requested (action : String)
  | done (action : String) (err : SolidErr) (msg : String)
  | accessChanged (accessible : Bool) (udi : String)
  | call (path method : String) (args : List String)
  | callNoBlock (path method : String)
  | showDialog (udi : String)
  | invalidateCache
  | replyOk (k : PendKind)
  | replyErr (k : PendKind)
deriving DecidableEq

/-- The mutable per-device state of `StorageAccess`: the three progress
flags, the cached accessibility boolean, plus the at-most-one pending
asynchronous daemon call (spec section 5: no additional call for the same
device is issued while one is outstanding). -/
structure SA where
  m_setupInProgress : Bool
  m_teardownInProgress : Bool
  m_passphraseRequested : Bool
  m_isAccessible : Bool
  pending : Option PendKind
deriving DecidableEq

/-- The error-name translation used by `slotDBusError`
(`Device::errorToSolidError` / `Device::errorToString`, defined in
`udisksdevice.cpp`); kept abstract since only its pointwise use matters. -/
structure ErrMaps where
  toSolid : String → SolidErr
  toStr : String → String

/-- `StorageAccess::isLuksDevice`. -/
def isLuksDevice (env : Env) : Bool :=
  env.isEncryptedContainer

/-- `StorageAccess::isAccessible`: for an encrypted container, whether the
cleartext sibling exists (path nonempty and not "/") and is mounted;
otherwise whether the device itself is mounted. -/
def isAccessible (env : Env) : Bool :=
  if isLuksDevice env then
    if env.clearTextPath == "" || env.clearTextPath == "/" then false
    else env.cleartextMounted
  else
    env.deviceMounted

/-- `StorageAccess::updateCache`. -/
def updateCache (env : Env) (s : SA) : SA :=
  { s with m_isAccessible := isAccessible env }

/-- The object path targeted by `mount`/`unmount`: the cleartext sibling
when the device is an encrypted container with a nonempty cleartext path,
else the device itself. -/
def mountTargetPath (env : Env) : String :=
  if isLuksDevice env && !(env.clearTextPath == "") then env.clearTextPath
  else env.udi

/-- The options map passed to `Mount` (the `"flush"` option for vfat). -/
def mountArgs (env : Env) : List String :=
  if env.idType == "vfat" then ["flush"] else []

/-- `StorageAccess::mount`: issues the asynchronous `Mount` call.  The
returned `Bool` is the dispatch result of `callWithCallback`. -/
def mount (env : Env) (s : SA) : Bool × SA × List Ev :=
  (env.sysBusOk,
   { s with pending := some PendKind.mount },
   [Ev.call (mountTargetPath env) "Mount" (mountArgs env)])

/-- `StorageAccess::unmount`: issues the asynchronous `Unmount` call. -/
def unmount (env : Env) (s : SA) : Bool × SA × List Ev :=
  (env.sysBusOk,
   { s with pending := some PendKind.unmount },
   [Ev.call (mountTargetPath env) "Unmount" []])

/-- `StorageAccess::requestPassphrase`: asks the interactive prompt
service to show a dialog; `m_passphraseRequested` records whether the
dispatch succeeded, and that is also the return value. -/
def requestPassphrase (env : Env) (s : SA) : Bool × SA × List Ev :=
  (env.dialogOk,
   { s with m_passphraseRequested := env.dialogOk },
   [Ev.showDialog env.udi])

/-- `StorageAccess::callCryptoSetup`: issues the asynchronous `Unlock`
call carrying the passphrase. -/
def callCryptoSetup (env : Env) (passphrase : String) (s : SA) : SA × List Ev :=
  ({ s with pending := some PendKind.unlock },
   [Ev.call env.udi "Unlock" [passphrase]])

/-- `StorageAccess::callCryptoTeardown`: issues the asynchronous `Lock`
call, against the crypto backing device when acting on the parent. -/
def callCryptoTeardown (env : Env) (actOnParent : Bool) (s : SA) : SA × List Ev :=
  ({ s with pending := some PendKind.lock },
   [Ev.call (if actOnParent then env.cryptoBackingDevice else env.udi) "Lock" []])

/-- `StorageAccess::checkAccessibility`: recompute the accessibility
cache and emit `accessibilityChanged` exactly when the value flipped. -/
def checkAccessibility (env : Env) (s : SA) : SA × List Ev :=
  let old := s.m_isAccessible
  let s1 := updateCache env s
  (s1,
   if old != s1.m_isAccessible then [Ev.accessChanged s1.m_isAccessible env.udi]
   else [])

/-- `StorageAccess::setup`: rejected while a setup or teardown is in
progress; otherwise marks setup in progress, broadcasts the request, and
either asks for a passphrase (encrypted container with no resolvable
cleartext sibling) or issues the mount call. -/
def setup (env : Env) (s : SA) : Bool × SA × List Ev :=
  if s.m_teardownInProgress || s.m_setupInProgress then (false, s, [])
  else
    let s1 := { s with m_setupInProgress := true }
    if env.isEncryptedContainer && env.clearTextPath == "" then
      let r := requestPassphrase env s1
      (r.1, r.2.1, Ev.requested "setup" :: r.2.2)
    else
      let r := mount env s1
      (r.1, r.2.1, Ev.requested "setup" :: r.2.2)

/-- `StorageAccess::teardown`: rejected while a setup or teardown is in
progress; otherwise marks teardown in progress, broadcasts the request,
and issues the unmount call. -/
def teardown (env : Env) (s : SA) : Bool × SA × List Ev :=
  if s.m_teardownInProgress || s.m_setupInProgress then (false, s, [])
  else
    let s1 := { s with m_teardownInProgress := true }
    let r := unmount env s1
    (r.1, r.2.1, Ev.requested "teardown" :: r.2.2)

/-- `StorageAccess::slotDBusReply`: successful completion of the pending
daemon call.  During setup, an unlocked-but-not-yet-accessible encrypted
device re-enters `mount`; only otherwise is the setup finished (flag
cleared, cache invalidated, done broadcast, accessibility recheck).
During teardown, the cascade locks the container (or the encrypted
parent), else best-effort ejects or powers off the parent drive, then
finishes the teardown. -/
def slotDBusReply (env : Env) (s : SA) : SA × List Ev :=
  if s.m_setupInProgress then
    if isLuksDevice env && !isAccessible env then
      let r := mount env s
      (r.2.1, r.2.2)
    else
      let s1 := { s with m_setupInProgress := false }
      let p := checkAccessibility env s1
      (p.1, [Ev.invalidateCache, Ev.done "setup" SolidErr.noError ""] ++ p.2)
  else if s.m_teardownInProgress then
    let ct := env.clearTextPath
    if isLuksDevice env && !(ct == "") && !(ct == "/") then
      callCryptoTeardown env false s
    else if !(ct == "") && !(ct == "/") then
      callCryptoTeardown env true s
    else
      let ejectEvs :=
        if !(env.drivePath == "") || !(env.drivePath == "/") then
          if env.mediaRemovable && env.mediaAvailable && !env.isOpticalDisc then
            [Ev.callNoBlock env.drivePath "Eject"]
          else if env.canPowerOff && !env.isOpticalDisc then
            [Ev.callNoBlock env.drivePath "PowerOff"]
          else []
        else []
      let s1 := { s with m_teardownInProgress := false }
      let p := checkAccessibility env s1
      (p.1, ejectEvs ++ [Ev.invalidateCache, Ev.done "teardown" SolidErr.noError ""] ++ p.2)
  else (s, [])

/-- `StorageAccess::slotDBusError`: an error completion clears the
in-progress flag, broadcasts one done-notification carrying the mapped
error kind and the composed message, and rechecks accessibility. -/
def slotDBusError (em : ErrMaps) (env : Env) (errName errMsg : String) (s : SA) : SA × List Ev :=
  if s.m_setupInProgress then
    let s1 := { s with m_setupInProgress := false }
    let p := checkAccessibility env s1
    (p.1, Ev.done "setup" (em.toSolid errName) (em.toStr errName ++ ": " ++ errMsg) :: p.2)
  else if s.m_teardownInProgress then
    let s1 := { s with m_teardownInProgress := false }
    let p := checkAccessibility env s1
    (p.1, Ev.done "teardown" (em.toSolid errName) (em.toStr errName ++ ": " ++ errMsg) :: p.2)
  else (s, [])

/-- `StorageAccess::passphraseReply`: ignored unless a passphrase request
is outstanding; a nonempty passphrase proceeds to `Unlock`, an empty one
cancels the setup with a user-canceled done broadcast. -/
def passphraseReply (env : Env) (passphrase : String) (s : SA) : SA × List Ev :=
  if s.m_passphraseRequested then
    let s1 := { s with m_passphraseRequested := false }
    if !(passphrase == "") then
      callCryptoSetup env passphrase s1
    else
      ({ s1 with m_setupInProgress := false },
       [Ev.done "setup" SolidErr.userCanceled ""])
  else (s, [])

/-- External stimuli of the single-threaded event loop: the public
`setup`/`teardown` entry points, the asynchronous passphrase reply, and
delivery of the pending daemon call's success or error completion. -/
inductive Stim where
  | doSetup
  | doTeardown
  | passReply (passphrase : String)
  | dbusOk
  | dbusErr (errName errMsg : String)

/-- One event-loop step.  Completions are only ever delivered for the
pending call (there is none to deliver otherwise), and consuming one is
recorded in the trace as a `replyOk`/`replyErr` marker before the slot body
runs. -/
def step (em : ErrMaps) (env : Env) (s : SA) : Stim → SA × List Ev
  | Stim.doSetup => ((setup env s).2.1, (setup env s).2.2)
  | Stim.doTeardown => ((teardown env s).2.1, (teardown env s).2.2)
  | Stim.passReply pw => passphraseReply env pw s
  | Stim.dbusOk =>
      match s.pending with
      | none => (s, [])
      | some k =>
          let p := slotDBusReply env { s with pending := none }
          (p.1, Ev.replyOk k :: p.2)
  | Stim.dbusErr n m =>
      match s.pending with
      | none => (s, [])
      | some k =>
          let p := slotDBusError em env n m { s with pending := none }
          (p.1, Ev.replyErr k :: p.2)

/-- Run a script of stimuli, each delivered under its own snapshot of the
external environment, collecting the full event trace. -/
def run (em : ErrMaps) (s : SA) : List (Env × Stim) → SA × List Ev
  | [] => (s, [])
  | (env, stim) :: rest =>
      let p := step em env s stim
      let q := run em p.1 rest
      (q.1, p.2 ++ q.2)

/-- The state built by the constructor: all flags down, no pending call,
and an arbitrary initial accessibility cache `c`. -/
def initSA (c : Bool) : SA :=
  { m_setupInProgress := false
    m_teardownInProgress := false
    m_passphraseRequested := false
    m_isAccessible := c
    pending := none }

/-- Recognize a `Mount` daemon call in the trace. -/
def isMountCall : Ev → Bool
  | Ev.call _ m _ => m == "Mount"
  | _ => false

/-- Recognize an `Eject` fire-and-forget call. -/
def isEjectCall : Ev → Bool
  | Ev.callNoBlock _ m => m == "Eject"
  | _ => false

/-- Recognize a `PowerOff` fire-and-forget call. -/
def isPowerOffCall : Ev → Bool
  | Ev.callNoBlock _ m => m == "PowerOff"
  | _ => false

/-- Number of `Eject` calls in a trace. -/
def ejectCount (l : List Ev) : Nat :=
  l.countP isEjectCall

/-- Number of `PowerOff` calls in a trace. -/
def powerOffCount (l : List Ev) : Nat :=
  l.countP isPowerOffCall

/-- Recognize any daemon call (with or without callback). -/
def isDaemonCall : Ev → Bool
  | Ev.call _ _ _ => true
  | Ev.callNoBlock _ _ => true
  | _ => false

/-- Trace marker ending the "locked" phase of one setup attempt: either
the pending `Unlock` completed successfully, or the attempt finished with
a setup-done broadcast (success, error, or cancel). -/
def setupMarker : Ev → Bool
  | Ev.replyOk PendKind.unlock => true
  | Ev.done a _ _ => a == "setup"
  | _ => false

/-- `traceOk seen tr` holds when every `Mount` call in `tr` happens after
a `setupMarker` event (`seen` records whether one was already passed). -/
def traceOk : Bool → List Ev → Bool
  | _, [] => true
  | seen, e :: rest => ((!isMountCall e) || seen) && traceOk (seen || setupMarker e) rest

/-- Invariant of the locked phase of a setup attempt: while no
`setupMarker` has occurred, setup is in progress, teardown is not, and at
most an `Unlock` is pending. -/
def InvC5 (s : SA) (seen : Bool) : Prop :=
  seen = false →
    s.m_setupInProgress = true ∧ s.m_teardownInProgress = false ∧
      (s.pending = none ∨ s.pending = some PendKind.unlock)

/-- A concrete environment: an encrypted, still-locked container. -/
def envLocked : Env :=
  { udi := "/org/x/block_1"
    isEncryptedContainer := true
    clearTextPath := ""
    deviceMounted := false
    cleartextMounted := false
    idType := "crypto_LUKS"
    drivePath := "/org/x/drive_1"
    cryptoBackingDevice := ""
    mediaRemovable := true
    mediaAvailable := true
    canPowerOff := false
    isOpticalDisc := false
    dialogOk := true
    sysBusOk := true }

/-- The same device after a successful unlock: the cleartext sibling
exists but is not yet mounted. -/
def envUnlocked : Env :=
  { envLocked with clearTextPath := "/org/x/block_2" }

/-- The same device after the cleartext sibling got mounted. -/
def envMounted : Env :=
  { envUnlocked with cleartextMounted := true }

/-- A non-encrypted device whose parent drive is not removable but can
power off; used against claim C6. -/
def envPowerOff : Env :=
  { udi := "/org/x/block_7"
    isEncryptedContainer := false
    clearTextPath := ""
    deviceMounted := false
    cleartextMounted := false
    idType := "ext4"
    drivePath := "/org/x/drive_7"
    cryptoBackingDevice := ""
    mediaRemovable := false
    mediaAvailable := true
    canPowerOff := true
    isOpticalDisc := false
    dialogOk := true
    sysBusOk := true }

/-- A state in the middle of a teardown, no pending call bookkeeping
needed for the direct slot-level counterexample. -/
def sTeardown : SA :=
  { m_setupInProgress := false
    m_teardownInProgress := true
    m_passphraseRequested := false
    m_isAccessible := true
    pending := some PendKind.unmount }

/-- A state in the middle of a setup with an outstanding passphrase
request. -/
def sPassReq : SA :=
  { m_setupInProgress := true
    m_teardownInProgress := false
    m_passphraseRequested := true
    m_isAccessible := false
    pending := none }

/-- The concrete state after the passphrase was supplied and the
`Unlock` call dispatched. -/
def sUnlockPending : SA :=
  { m_setupInProgress := true
    m_teardownInProgress := false
    m_passphraseRequested := false
    m_isAccessible := false
    pending := some PendKind.unlock }

/-- The concrete state after the unlock completed and the `Mount` call
was dispatched. -/
def sMountPending : SA :=
  { sUnlockPending with pending := some PendKind.mount }

/-- A trivial concrete error-name translation. -/
def emId : ErrMaps :=
  { toSolid := fun n => SolidErr.mapped n
    toStr := fun n => n }

end UDisks2

namespace Fstab

/-- One record of the static mount-configuration file as delivered by
`getmntent(3)`: source, mount point, filesystem type, and the option
string already split at commas. -/
structure FstabEntry where
  fsname : String
  mountpoint : String
  fstype : String
  options : List String
deriving DecidableEq

/-- One record of the live mount table (`getmntent` on the mounted-table
file, or `getmntinfo`). -/
structure MtabEntry where
  fsname : String
  mountpoint : String
  fstype : String
deriving DecidableEq

/-- The two underlying files the parsers read. -/
structure MountEnv where
  fstab : List FstabEntry
  mtab : List MtabEntry
deriving DecidableEq

/-- The per-context cache object (class `FstabHandling`): one validity
boolean per cache, the multi-valued device-to-mountpoint caches for fstab
and mtab, the multi-valued options cache, and the single-valued
filesystem-type cache shared by both parsers. -/
structure FstabHandling where
  m_fstabCacheValid : Bool
  m_mtabCacheValid : Bool
  m_fstabCache : List (String × String)
  m_fstabOptionsCache : List (String × String)
  m_fstabFstypeCache : List (String × String)
  m_mtabCache : List (String × String)
deriving DecidableEq

/-- The state built by the `FstabHandling` constructor. -/
def initCache : FstabHandling :=
  { m_fstabCacheValid := false
    m_mtabCacheValid := false
    m_fstabCache := []
    m_fstabOptionsCache := []
    m_fstabFstypeCache := []
    m_mtabCache := [] }

/-- Multi-valued insert (`QMultiHash::insert`): keeps every binding. -/
def multiInsert (k v : String) (m : List (String × String)) : List (String × String) :=
  m ++ [(k, v)]

/-- All values bound to a key (`values(key)`), in insertion order. -/
def multiValues (k : String) (m : List (String × String)) : List String :=
  (m.filter (fun p => p.1 == k)).map Prod.snd

/-- Single-valued insert (`QHash::insert`): replaces the binding. -/
def mapInsert (k v : String) (m : List (String × String)) : List (String × String) :=
  (k, v) :: m.filter (fun p => !(p.1 == k))

/-- Single-valued lookup (`QHash::value`), defaulting to the empty
string like a default-constructed `QString`. -/
def mapValue (k : String) (m : List (String × String)) : String :=
  ((m.find? (fun p => p.1 == k)).map Prod.snd).getD ""

/-- `QStringList::removeDuplicates`: keep the first occurrence of each
element. -/
def removeDuplicates : List String → List String
  | [] => []
  | x :: xs => x :: removeDuplicates (xs.filter (fun y => !(y == x)))
termination_by l => l.length
decreasing_by
  exact Nat.lt_succ_of_le (List.length_filter_le _ _)

/-- `QString::startsWith`, computed on the underlying character data so
that it evaluates inside the kernel. -/
def strStartsWith (s pre : String) : Bool :=
  pre.data.isPrefixOf s.data

/-- `_k_isFstabNetworkFileSystem`. -/
def _k_isFstabNetworkFileSystem (fstype devName : String) : Bool :=
  fstype == "nfs" || fstype == "nfs4" || fstype == "smbfs" || fstype == "cifs"
    || strStartsWith devName "//"

/-- `_k_isFstabSupportedLocalFileSystem`. -/
def _k_isFstabSupportedLocalFileSystem (fstype : String) : Bool :=
  fstype == "fuse.encfs" || fstype == "fuse.cryfs" || fstype == "overlay"

/-- `_k_deviceNameForMountpoint`. -/
def _k_deviceNameForMountpoint (source fstype mountpoint : String) : String :=
  if strStartsWith fstype "fuse." || fstype == "overlay" then fstype ++ mountpoint
  else source

/-- The retention test of the fstab parser: network filesystem (checked
against the entry's source name) or allow-listed local filesystem. -/
def keepFstabEntry (e : FstabEntry) : Bool :=
  _k_isFstabNetworkFileSystem e.fstype e.fsname
    || _k_isFstabSupportedLocalFileSystem e.fstype

/-- The cache key of an fstab entry. -/
def fstabDevice (e : FstabEntry) : String :=
  _k_deviceNameForMountpoint e.fsname e.fstype e.mountpoint

/-- The retention test of the mtab parser: the source name passed to the
network check is the empty string in the source
(`_k_isFstabNetworkFileSystem(type, QString())`). -/
def keepMtabEntry (e : MtabEntry) : Bool :=
  _k_isFstabNetworkFileSystem e.fstype ""
    || _k_isFstabSupportedLocalFileSystem e.fstype

/-- The cache key of an mtab entry. -/
def mtabDevice (e : MtabEntry) : String :=
  _k_deviceNameForMountpoint e.fsname e.fstype e.mountpoint

/-- One loop iteration of `_k_updateFstabMountPointsCache`: a retained
entry is inserted into the mountpoint cache, the shared fstype cache and
the options cache; any other entry is skipped. -/
def insertFstabEntry (e : FstabEntry) (c : FstabHandling) : FstabHandling :=
  if keepFstabEntry e then
    let device := fstabDevice e
    { c with
      m_fstabCache := multiInsert device e.mountpoint c.m_fstabCache
      m_fstabFstypeCache := mapInsert device e.fstype c.m_fstabFstypeCache
      m_fstabOptionsCache :=
        e.options.foldl (fun oc o => multiInsert device o oc) c.m_fstabOptionsCache }
  else c

/-- `FstabHandling::_k_updateFstabMountPointsCache`: a no-op while the
cache is valid; otherwise clears the mountpoint and options caches (not
the fstype cache), re-reads the whole file, and marks the cache valid. -/
def _k_updateFstabMountPointsCache (env : MountEnv) (c : FstabHandling) : FstabHandling :=
  if c.m_fstabCacheValid then c
  else
    let c0 := { c with m_fstabCache := [], m_fstabOptionsCache := [] }
    let c1 := env.fstab.foldl (fun acc e => insertFstabEntry e acc) c0
    { c1 with m_fstabCacheValid := true }

/-- One loop iteration of `_k_updateMtabMountPointsCache`. -/
def insertMtabEntry (e : MtabEntry) (c : FstabHandling) : FstabHandling :=
  if keepMtabEntry e then
    let device := mtabDevice e
    { c with
      m_mtabCache := multiInsert device e.mountpoint c.m_mtabCache
      m_fstabFstypeCache := mapInsert device e.fstype c.m_fstabFstypeCache }
  else c

/-- `FstabHandling::_k_updateMtabMountPointsCache`: a no-op while the
cache is valid; otherwise clears only the mtab mountpoint cache,
re-reads the live mount table, and marks the cache valid. -/
def _k_updateMtabMountPointsCache (env : MountEnv) (c : FstabHandling) : FstabHandling :=
  if c.m_mtabCacheValid then c
  else
    let c0 := { c with m_mtabCache := [] }
    let c1 := env.mtab.foldl (fun acc e => insertMtabEntry e acc) c0
    { c1 with m_mtabCacheValid := true }

/-- `FstabHandling::deviceList`. -/
def deviceList (env : MountEnv) (c : FstabHandling) : List String × FstabHandling :=
  let c1 := _k_updateFstabMountPointsCache env c
  let c2 := _k_updateMtabMountPointsCache env c1
  (removeDuplicates (c2.m_fstabCache.map Prod.fst ++ c2.m_mtabCache.map Prod.fst), c2)

/-- `FstabHandling::mountPoints`. -/
def mountPoints (env : MountEnv) (device : String) (c : FstabHandling) :
    List String × FstabHandling :=
  let c1 := _k_updateFstabMountPointsCache env c
  let c2 := _k_updateMtabMountPointsCache env c1
  (removeDuplicates (multiValues device c2.m_fstabCache ++ multiValues device c2.m_mtabCache), c2)

/-- `FstabHandling::options`. -/
def options (env : MountEnv) (device : String) (c : FstabHandling) :
    List String × FstabHandling :=
  let c1 := _k_updateFstabMountPointsCache env c
  (multiValues device c1.m_fstabOptionsCache, c1)

/-- `FstabHandling::fstype`. -/
def fstype (env : MountEnv) (device : String) (c : FstabHandling) :
    String × FstabHandling :=
  let c1 := _k_updateFstabMountPointsCache env c
  (mapValue device c1.m_fstabFstypeCache, c1)

/-- `FstabHandling::currentMountPoints`. -/
def currentMountPoints (env : MountEnv) (device : String) (c : FstabHandling) :
    List String × FstabHandling :=
  let c1 := _k_updateMtabMountPointsCache env c
  (multiValues device c1.m_mtabCache, c1)

/-- `FstabHandling::flushMtabCache`. -/
def flushMtabCache (c : FstabHandling) : FstabHandling :=
  { c with m_mtabCacheValid := false }

/-- `FstabHandling::flushFstabCache`. -/
def flushFstabCache (c : FstabHandling) : FstabHandling :=
  { c with m_fstabCacheValid := false }

/-- A mount environment where the same network share appears in the
static file with type `cifs` and in the live table with type `nfs`. -/
def envShared : MountEnv :=
  { fstab := [{ fsname := "//srv/share", mountpoint := "/mnt/a", fstype := "cifs",
                options := ["defaults"] }]
    mtab := [{ fsname := "//srv/share", mountpoint := "/mnt/b", fstype := "nfs" }] }

/-- A live mount table whose single entry has a source starting with
`//` but a filesystem type outside the retained lists. -/
def envSlashSlash : MountEnv :=
  { fstab := []
    mtab := [{ fsname := "//srv/share", mountpoint := "/mnt/c", fstype := "ext4" }] }

/-- A second retained nfs entry, to be appended to the static file. -/
def entryNfs2 : FstabEntry :=
  { fsname := "remote2:/vol"
    mountpoint := "/mnt/nfs2"
    fstype := "nfs"
    options := ["rw"] }

/-- An environment whose files contain nothing at all. -/
def envEmpty : MountEnv :=
  { fstab := [], mtab := [] }

/-- An fstab file holding one retained nfs entry for `remote:/vol`. -/
def envNfs : MountEnv :=
  { fstab := [{ fsname := "remote:/vol", mountpoint := "/mnt/nfs", fstype := "nfs",
                options := ["rw", "noauto"] }]
    mtab := [] }

end Fstab

namespace UDisks2

/-- C1: while a setup or teardown is in progress, both `setup` and
`teardown` return `false` immediately, issue no platform request,
broadcast no event, and leave the whole state (flags, accessibility
cache, pending call) unchanged. -/
theorem c1_busy_setup_teardown_reject (env : Env) (s : SA)
    (h : s.m_setupInProgress = true ∨ s.m_teardownInProgress = true) :
    setup env s = (false, s, []) ∧ teardown env s = (false, s, []) := by
  rcases h with h | h <;> simp [setup, teardown, h]

/-- C1 witness at a concrete busy state. -/
theorem c1_busy_setup_teardown_reject_witness :
    setup envLocked sPassReq = (false, sPassReq, []) ∧
      teardown envLocked sPassReq = (false, sPassReq, []) :=
  c1_busy_setup_teardown_reject envLocked sPassReq (Or.inl rfl)

/-- C2: `checkAccessibility` overwrites the cache with the recomputed
boolean, emits the `accessibilityChanged` notification (new boolean plus
device identifier) exactly when the value differs from the cached one,
is a complete no-op when the value is unchanged, and a second call under
the same external state emits nothing. -/
theorem c2_checkAccessibility_change_detection (env : Env) (s : SA) :
    checkAccessibility env s =
      ({ s with m_isAccessible := isAccessible env },
        if s.m_isAccessible != isAccessible env then
          [Ev.accessChanged (isAccessible env) env.udi]
        else []) ∧
    ((checkAccessibility env s).2 ≠ [] ↔ isAccessible env ≠ s.m_isAccessible) ∧
    (isAccessible env = s.m_isAccessible → checkAccessibility env s = (s, [])) ∧
    (checkAccessibility env (checkAccessibility env s).1).2 = [] := by
  refine ⟨rfl, ?_, ?_, ?_⟩
  · by_cases h : s.m_isAccessible = isAccessible env
    · simp [checkAccessibility, updateCache, h]
    · simp [checkAccessibility, updateCache, bne_iff_ne, h, ne_comm]
  · intro h
    simp [checkAccessibility, updateCache, h]
  · simp [checkAccessibility, updateCache]

/-- C2 witness at a concrete state where accessibility flips. -/
theorem c2_checkAccessibility_change_detection_witness :
    checkAccessibility envMounted sPassReq =
      ({ sPassReq with m_isAccessible := isAccessible envMounted },
        if sPassReq.m_isAccessible != isAccessible envMounted then
          [Ev.accessChanged (isAccessible envMounted) envMounted.udi]
        else []) ∧
    ((checkAccessibility envMounted sPassReq).2 ≠ [] ↔
      isAccessible envMounted ≠ sPassReq.m_isAccessible) ∧
    (isAccessible envMounted = sPassReq.m_isAccessible →
      checkAccessibility envMounted sPassReq = (sPassReq, [])) ∧
    (checkAccessibility envMounted (checkAccessibility envMounted sPassReq).1).2 = [] :=
  c2_checkAccessibility_change_detection envMounted sPassReq

/-- C3: with a passphrase request outstanding, an empty passphrase reply
clears the setup-in-progress flag (and the request flag), broadcasts
exactly one setup-done event carrying the user-canceled error, issues no
daemon call, and leaves the accessibility cache and the pending field
unchanged — the result is exactly this state/event pair. -/
theorem c3_empty_passphrase_cancels (env : Env) (s : SA)
    (h : s.m_passphraseRequested = true) :
    passphraseReply env "" s =
      ({ s with m_passphraseRequested := false, m_setupInProgress := false },
        [Ev.done "setup" SolidErr.userCanceled ""]) := by
  simp [passphraseReply, h]

/-- C3 witness at a concrete requesting state. -/
theorem c3_empty_passphrase_cancels_witness :
    passphraseReply envLocked "" sPassReq =
      ({ sPassReq with m_passphraseRequested := false, m_setupInProgress := false },
        [Ev.done "setup" SolidErr.userCanceled ""]) :=
  c3_empty_passphrase_cancels envLocked sPassReq rfl

/-- C4: a passphrase reply delivered while no request is outstanding is a
complete no-op for every passphrase: no state change, no event. -/
theorem c4_unsolicited_passphrase_ignored (env : Env) (pw : String) (s : SA)
    (h : s.m_passphraseRequested = false) :
    passphraseReply env pw s = (s, []) := by
  simp [passphraseReply, h]

/-- C4 witness at a concrete state and passphrase. -/
theorem c4_unsolicited_passphrase_ignored_witness :
    passphraseReply envLocked "secret" (initSA false) = (initSA false, []) :=
  c4_unsolicited_passphrase_ignored envLocked "secret" (initSA false) rfl

/-- C7: a daemon-reported error during an in-progress setup (resp.
teardown) clears that in-progress flag, broadcasts exactly one
done-notification carrying the error kind mapped from the platform error
name together with the composed message, rechecks accessibility, and
issues no daemon call (in particular no retry): the result is exactly
this state/event pair. -/
theorem c7_error_terminates_action (em : ErrMaps) (env : Env) (s : SA)
    (errName errMsg : String) :
    (s.m_setupInProgress = true →
      slotDBusError em env errName errMsg s =
        ({ s with m_setupInProgress := false, m_isAccessible := isAccessible env },
          Ev.done "setup" (em.toSolid errName) (em.toStr errName ++ ": " ++ errMsg) ::
            (if s.m_isAccessible != isAccessible env then
              [Ev.accessChanged (isAccessible env) env.udi]
            else []))) ∧
    (s.m_setupInProgress = false → s.m_teardownInProgress = true →
      slotDBusError em env errName errMsg s =
        ({ s with m_teardownInProgress := false, m_isAccessible := isAccessible env },
          Ev.done "teardown" (em.toSolid errName) (em.toStr errName ++ ": " ++ errMsg) ::
            (if s.m_isAccessible != isAccessible env then
              [Ev.accessChanged (isAccessible env) env.udi]
            else []))) := by
  constructor
  · intro h
    simp [slotDBusError, h, checkAccessibility, updateCache]
  · intro h1 h2
    simp [slotDBusError, h1, h2, checkAccessibility, updateCache]

/-- C7 witness at a concrete erroring setup. -/
theorem c7_error_terminates_action_witness :
    (sPassReq.m_setupInProgress = true →
      slotDBusError emId envLocked "org.freedesktop.UDisks2.Error.Failed" "boom" sPassReq =
        ({ sPassReq with
            m_setupInProgress := false
            m_isAccessible := isAccessible envLocked },
          Ev.done "setup" (emId.toSolid "org.freedesktop.UDisks2.Error.Failed")
              (emId.toStr "org.freedesktop.UDisks2.Error.Failed" ++ ": " ++ "boom") ::
            (if sPassReq.m_isAccessible != isAccessible envLocked then
              [Ev.accessChanged (isAccessible envLocked) envLocked.udi]
            else []))) ∧
    (sPassReq.m_setupInProgress = false → sPassReq.m_teardownInProgress = true →
      slotDBusError emId envLocked "org.freedesktop.UDisks2.Error.Failed" "boom" sPassReq =
        ({ sPassReq with
            m_teardownInProgress := false
            m_isAccessible := isAccessible envLocked },
          Ev.done "teardown" (emId.toSolid "org.freedesktop.UDisks2.Error.Failed")
              (emId.toStr "org.freedesktop.UDisks2.Error.Failed" ++ ": " ++ "boom") ::
            (if sPassReq.m_isAccessible != isAccessible envLocked then
              [Ev.accessChanged (isAccessible envLocked) envLocked.udi]
            else []))) :=
  c7_error_terminates_action emId envLocked sPassReq
    "org.freedesktop.UDisks2.Error.Failed" "boom"

end UDisks2

namespace UDisks2

/-- C6 counterexample: successful unmount completion with no encrypted
container involved, parent drive not removable but able to power off,
device not optical — the claim says neither an Eject nor a PowerOff call
may be issued, but the code issues a PowerOff call. -/
theorem c6_counterexample :
    envPowerOff.mediaRemovable = false ∧ envPowerOff.isOpticalDisc = false ∧
      powerOffCount (slotDBusReply envPowerOff sTeardown).2 = 1 := by
  refine ⟨rfl, rfl, ?_⟩
  decide

/-- C6 (amended): on successful unmount completion of a teardown with no
encrypted container involved, a removable parent with media available and
a non-optical device gets exactly one Eject call (and no PowerOff); an
optical device gets neither call; a non-removable parent (or one without
media) gets no Eject, and gets exactly one PowerOff call when it can
power off and the device is not optical, and no call at all when it
cannot power off. -/
theorem c6_teardown_eject_poweroff (env : Env) (s : SA)
    (h1 : s.m_teardownInProgress = true) (h2 : s.m_setupInProgress = false)
    (h3 : env.clearTextPath = "" ∨ env.clearTextPath = "/") :
    (env.mediaRemovable = true → env.mediaAvailable = true → env.isOpticalDisc = false →
      ejectCount (slotDBusReply env s).2 = 1 ∧
        powerOffCount (slotDBusReply env s).2 = 0) ∧
    (env.isOpticalDisc = true →
      ejectCount (slotDBusReply env s).2 = 0 ∧
        powerOffCount (slotDBusReply env s).2 = 0) ∧
    ((env.mediaRemovable = false ∨ env.mediaAvailable = false) →
      env.canPowerOff = true → env.isOpticalDisc = false →
      ejectCount (slotDBusReply env s).2 = 0 ∧
        powerOffCount (slotDBusReply env s).2 = 1) ∧
    ((env.mediaRemovable = false ∨ env.mediaAvailable = false) →
      env.canPowerOff = false →
      ejectCount (slotDBusReply env s).2 = 0 ∧
        powerOffCount (slotDBusReply env s).2 = 0) := by
  refine ⟨?_, ?_, ?_, ?_⟩
  · intro ha hb hc
    rcases h3 with h3 | h3 <;>
      by_cases hacc : s.m_isAccessible = isAccessible env <;>
      by_cases hdp : env.drivePath = "" <;>
      simp [slotDBusReply, h1, h2, h3, ha, hb, hc, hacc, hdp, checkAccessibility,
        updateCache, ejectCount, powerOffCount, isEjectCall, isPowerOffCall,
        bne_iff_ne, List.countP_append, List.countP_cons, isLuksDevice]
  · intro ha
    rcases h3 with h3 | h3 <;>
      by_cases hacc : s.m_isAccessible = isAccessible env <;>
      by_cases hdp : env.drivePath = "" <;>
      simp [slotDBusReply, h1, h2, h3, ha, hacc, hdp, checkAccessibility,
        updateCache, ejectCount, powerOffCount, isEjectCall, isPowerOffCall,
        bne_iff_ne, List.countP_append, List.countP_cons, isLuksDevice]
  · intro ha hb hc
    rcases h3 with h3 | h3 <;> rcases ha with ha | ha <;>
      by_cases hacc : s.m_isAccessible = isAccessible env <;>
      by_cases hdp : env.drivePath = "" <;>
      simp [slotDBusReply, h1, h2, h3, ha, hb, hc, hacc, hdp, checkAccessibility,
        updateCache, ejectCount, powerOffCount, isEjectCall, isPowerOffCall,
        bne_iff_ne, List.countP_append, List.countP_cons, isLuksDevice]
  · intro ha hb
    rcases h3 with h3 | h3 <;> rcases ha with ha | ha <;>
      by_cases hacc : s.m_isAccessible = isAccessible env <;>
      by_cases hdp : env.drivePath = "" <;>
      simp [slotDBusReply, h1, h2, h3, ha, hb, hacc, hdp, checkAccessibility,
        updateCache, ejectCount, powerOffCount, isEjectCall, isPowerOffCall,
        bne_iff_ne, List.countP_append, List.countP_cons, isLuksDevice]

/-- C6 witness at a concrete removable-parent teardown completion. -/
theorem c6_teardown_eject_poweroff_witness :
    (envLocked.mediaRemovable = true → envLocked.mediaAvailable = true →
      envLocked.isOpticalDisc = false →
      ejectCount (slotDBusReply envLocked sTeardown).2 = 1 ∧
        powerOffCount (slotDBusReply envLocked sTeardown).2 = 0) ∧
    (envLocked.isOpticalDisc = true →
      ejectCount (slotDBusReply envLocked sTeardown).2 = 0 ∧
        powerOffCount (slotDBusReply envLocked sTeardown).2 = 0) ∧
    ((envLocked.mediaRemovable = false ∨ envLocked.mediaAvailable = false) →
      envLocked.canPowerOff = true → envLocked.isOpticalDisc = false →
      ejectCount (slotDBusReply envLocked sTeardown).2 = 0 ∧
        powerOffCount (slotDBusReply envLocked sTeardown).2 = 1) ∧
    ((envLocked.mediaRemovable = false ∨ envLocked.mediaAvailable = false) →
      envLocked.canPowerOff = false →
      ejectCount (slotDBusReply envLocked sTeardown).2 = 0 ∧
        powerOffCount (slotDBusReply envLocked sTeardown).2 = 0) :=
  c6_teardown_eject_poweroff envLocked sTeardown rfl rfl (Or.inl rfl)

end UDisks2

namespace UDisks2

/-- Once a marker has been passed, any remaining trace is acceptable. -/
theorem traceOk_true (l : List Ev) : traceOk true l = true := by
  induction l with
  | nil => rfl
  | cons e rest ih => simp [traceOk, ih]

/-- `traceOk` splits along a trace concatenation. -/
theorem traceOk_append (t1 t2 : List Ev) (b : Bool) :
    traceOk b (t1 ++ t2) = (traceOk b t1 && traceOk (b || t1.any setupMarker) t2) := by
  induction t1 generalizing b with
  | nil => simp [traceOk]
  | cons e rest ih =>
      simp [traceOk, ih, Bool.or_assoc, Bool.and_assoc]

/-- Every single event-loop step keeps the locked-phase invariant and
produces a trace fragment in which no `Mount` call precedes a marker. -/
theorem step_c5 (em : ErrMaps) (env : Env) (s : SA) (stim : Stim) (seen : Bool)
    (h : InvC5 s seen) :
    traceOk seen (step em env s stim).2 = true ∧
      InvC5 (step em env s stim).1 (seen || (step em env s stim).2.any setupMarker) := by
  cases hseen : seen with
  | true =>
      subst hseen
      exact ⟨traceOk_true _, by simp [InvC5]⟩
  | false =>
      subst hseen
      obtain ⟨hs, ht, hp⟩ := h rfl
      cases stim with
      | doSetup =>
          refine ⟨?_, ?_⟩
          · simp [step, setup, hs, ht, traceOk]
          · simp [step, setup, hs, ht, InvC5]
            exact hp
      | doTeardown =>
          refine ⟨?_, ?_⟩
          · simp [step, teardown, hs, ht, traceOk]
          · simp [step, teardown, hs, ht, InvC5]
            exact hp
      | passReply pw =>
          cases hpr : s.m_passphraseRequested with
          | false =>
              refine ⟨?_, ?_⟩
              · simp [step, passphraseReply, hpr, traceOk]
              · simp [step, passphraseReply, hpr, InvC5, hs, ht]
                exact hp
          | true =>
              by_cases hpw : pw = ""
              · refine ⟨?_, ?_⟩
                · simp [step, passphraseReply, hpr, hpw, traceOk, isMountCall,
                    setupMarker]
                · simp [step, passphraseReply, hpr, hpw, setupMarker, InvC5]
              · refine ⟨?_, ?_⟩
                · simp [step, passphraseReply, hpr, hpw, callCryptoSetup, traceOk,
                    isMountCall, setupMarker]
                · simp [step, passphraseReply, hpr, hpw, callCryptoSetup, setupMarker,
                    InvC5, hs, ht]
      | dbusOk =>
          cases hpd : s.pending with
          | none =>
              refine ⟨?_, ?_⟩
              · simp [step, hpd, traceOk]
              · simp [step, hpd, InvC5, hs, ht]
          | some k =>
              have hk : k = PendKind.unlock := by
                rcases hp with hp | hp
                · rw [hp] at hpd; cases hpd
                · rw [hp] at hpd; cases hpd; rfl
              subst hk
              refine ⟨?_, ?_⟩
              · simp [step, hpd, traceOk, isMountCall, setupMarker, traceOk_true]
              · simp [step, hpd, setupMarker, InvC5]
      | dbusErr n m =>
          cases hpd : s.pending with
          | none =>
              refine ⟨?_, ?_⟩
              · simp [step, hpd, traceOk]
              · simp [step, hpd, InvC5, hs, ht]
          | some k =>
              have hk : k = PendKind.unlock := by
                rcases hp with hp | hp
                · rw [hp] at hpd; cases hpd
                · rw [hp] at hpd; cases hpd; rfl
              subst hk
              refine ⟨?_, ?_⟩
              · simp [step, hpd, slotDBusError, hs, traceOk, isMountCall, setupMarker,
                  traceOk_true]
              · simp [step, hpd, slotDBusError, hs, setupMarker, InvC5]

/-- Running any script from a state satisfying the locked-phase invariant
yields a trace in which no `Mount` call precedes a marker. -/
theorem run_c5 (em : ErrMaps) (script : List (Env × Stim)) :
    ∀ (s : SA) (seen : Bool), InvC5 s seen →
      traceOk seen (run em s script).2 = true := by
  induction script with
  | nil => intro s seen _; simp [run, traceOk]
  | cons p rest ih =>
      intro s seen h
      obtain ⟨env, stim⟩ := p
      have hstep := step_c5 em env s stim seen h
      simp only [run]
      rw [traceOk_append, hstep.1, Bool.true_and]
      exact ih _ _ hstep.2

end UDisks2

namespace UDisks2

/-- C5: starting `setup()` on an encrypted container that is still locked
(no cleartext sibling), no continuation of the event loop can issue a
`Mount` call before the pending `Unlock` call has completed successfully
(scoped to this setup attempt, i.e. before its setup-done broadcast);
moreover the successful completion of the `Unlock` call on a
still-inaccessible device leaves the setup-in-progress flag set,
broadcasts nothing and issues exactly the `Mount` call, while the
successful completion of the pending `Mount` call on a now-accessible
device clears the flag, invalidates the property cache, broadcasts
setup-done and rechecks accessibility. -/
theorem c5_no_mount_before_unlock (em : ErrMaps) (env0 : Env) (c : Bool)
    (script : List (Env × Stim)) (envU envM : Env) (sU sM : SA)
    (h1 : env0.isEncryptedContainer = true) (h2 : env0.clearTextPath = "") :
    traceOk false
      ((setup env0 (initSA c)).2.2 ++ (run em (setup env0 (initSA c)).2.1 script).2)
      = true ∧
    (sU.m_setupInProgress = true → sU.pending = some PendKind.unlock →
      isLuksDevice envU = true → isAccessible envU = false →
      step em envU sU Stim.dbusOk =
        ({ sU with pending := some PendKind.mount },
          [Ev.replyOk PendKind.unlock,
            Ev.call (mountTargetPath envU) "Mount" (mountArgs envU)])) ∧
    (sM.m_setupInProgress = true → sM.pending = some PendKind.mount →
      isAccessible envM = true →
      step em envM sM Stim.dbusOk =
        ({ sM with pending := none, m_setupInProgress := false, m_isAccessible := true },
          [Ev.replyOk PendKind.mount, Ev.invalidateCache,
            Ev.done "setup" SolidErr.noError ""] ++
            (if sM.m_isAccessible != true then [Ev.accessChanged true envM.udi]
             else []))) := by
  refine ⟨?_, ?_, ?_⟩
  · have h0 : (setup env0 (initSA c)).2.2 =
        [Ev.requested "setup", Ev.showDialog env0.udi] := by
      simp [setup, initSA, requestPassphrase, h1, h2]
    have hS : (setup env0 (initSA c)).2.1 =
        { initSA c with m_setupInProgress := true,
                        m_passphraseRequested := env0.dialogOk } := by
      simp [setup, initSA, requestPassphrase, h1, h2]
    rw [h0, hS, traceOk_append]
    have hfrag : traceOk false [Ev.requested "setup", Ev.showDialog env0.udi] = true := by
      simp [traceOk, isMountCall, setupMarker]
    rw [hfrag, Bool.true_and]
    have hmark : [Ev.requested "setup", Ev.showDialog env0.udi].any setupMarker = false := by
      simp [setupMarker]
    rw [hmark, Bool.or_false]
    apply run_c5
    intro _
    exact ⟨rfl, rfl, Or.inl rfl⟩
  · intro hA hB hC hD
    obtain ⟨f1, f2, f3, f4, f5⟩ := sU
    simp only [] at hA hB
    subst hA
    simp [step, hB, slotDBusReply, hC, hD, mount]
  · intro hA hB hC
    obtain ⟨f1, f2, f3, f4, f5⟩ := sM
    simp only [] at hA hB
    subst hA
    simp [step, hB, slotDBusReply, hC, checkAccessibility, updateCache]

/-- C5 witness: the canonical unlock-then-mount scenario on the concrete
locked device, with the unlock-completion and mount-completion step facts
instantiated at their concrete intermediate states. -/
theorem c5_no_mount_before_unlock_witness :
    traceOk false
      ((setup envLocked (initSA false)).2.2 ++
        (run emId (setup envLocked (initSA false)).2.1
          [(envLocked, Stim.passReply "secret"), (envUnlocked, Stim.dbusOk),
            (envMounted, Stim.dbusOk)]).2) = true ∧
    (sUnlockPending.m_setupInProgress = true →
      sUnlockPending.pending = some PendKind.unlock →
      isLuksDevice envUnlocked = true → isAccessible envUnlocked = false →
      step emId envUnlocked sUnlockPending Stim.dbusOk =
        ({ sUnlockPending with pending := some PendKind.mount },
          [Ev.replyOk PendKind.unlock,
            Ev.call (mountTargetPath envUnlocked) "Mount" (mountArgs envUnlocked)])) ∧
    (sMountPending.m_setupInProgress = true →
      sMountPending.pending = some PendKind.mount →
      isAccessible envMounted = true →
      step emId envMounted sMountPending Stim.dbusOk =
        ({ sMountPending with
            pending := none
            m_setupInProgress := false
            m_isAccessible := true },
          [Ev.replyOk PendKind.mount, Ev.invalidateCache,
            Ev.done "setup" SolidErr.noError ""] ++
            (if sMountPending.m_isAccessible != true then
              [Ev.accessChanged true envMounted.udi]
             else []))) :=
  c5_no_mount_before_unlock emId envLocked false
    [(envLocked, Stim.passReply "secret"), (envUnlocked, Stim.dbusOk),
      (envMounted, Stim.dbusOk)]
    envUnlocked envMounted sUnlockPending sMountPending
    rfl rfl

end UDisks2

namespace Fstab

/-- A parse is a no-op while the fstab cache is valid. -/
theorem updateFstab_noop (env : MountEnv) (c : FstabHandling)
    (h : c.m_fstabCacheValid = true) :
    _k_updateFstabMountPointsCache env c = c := by
  simp [_k_updateFstabMountPointsCache, h]

/-- A parse is a no-op while the mtab cache is valid. -/
theorem updateMtab_noop (env : MountEnv) (c : FstabHandling)
    (h : c.m_mtabCacheValid = true) :
    _k_updateMtabMountPointsCache env c = c := by
  simp [_k_updateMtabMountPointsCache, h]

/-- The fstab parse loop leaves the mtab validity flag alone. -/
theorem foldl_insertFstab_mtabValid (l : List FstabEntry) :
    ∀ c : FstabHandling,
      (l.foldl (fun acc e => insertFstabEntry e acc) c).m_mtabCacheValid
        = c.m_mtabCacheValid := by
  induction l with
  | nil => intro c; rfl
  | cons e rest ih =>
      intro c
      simp only [List.foldl_cons]
      rw [ih]
      by_cases hk : keepFstabEntry e = true <;> simp [insertFstabEntry, hk]

/-- The mtab parse loop leaves the fstab validity flag alone. -/
theorem foldl_insertMtab_fstabValid (l : List MtabEntry) :
    ∀ c : FstabHandling,
      (l.foldl (fun acc e => insertMtabEntry e acc) c).m_fstabCacheValid
        = c.m_fstabCacheValid := by
  induction l with
  | nil => intro c; rfl
  | cons e rest ih =>
      intro c
      simp only [List.foldl_cons]
      rw [ih]
      by_cases hk : keepMtabEntry e = true <;> simp [insertMtabEntry, hk]

/-- The mtab parse loop leaves the fstab mountpoint cache alone. -/
theorem foldl_insertMtab_fstabCache (l : List MtabEntry) :
    ∀ c : FstabHandling,
      (l.foldl (fun acc e => insertMtabEntry e acc) c).m_fstabCache
        = c.m_fstabCache := by
  induction l with
  | nil => intro c; rfl
  | cons e rest ih =>
      intro c
      simp only [List.foldl_cons]
      rw [ih]
      by_cases hk : keepMtabEntry e = true <;> simp [insertMtabEntry, hk]

/-- After a parse the fstab cache is always valid. -/
theorem updateFstab_fstabValid (env : MountEnv) (c : FstabHandling) :
    (_k_updateFstabMountPointsCache env c).m_fstabCacheValid = true := by
  by_cases h : c.m_fstabCacheValid = true <;>
    simp [_k_updateFstabMountPointsCache, h]

/-- After a parse the mtab cache is always valid. -/
theorem updateMtab_mtabValid (env : MountEnv) (c : FstabHandling) :
    (_k_updateMtabMountPointsCache env c).m_mtabCacheValid = true := by
  by_cases h : c.m_mtabCacheValid = true <;>
    simp [_k_updateMtabMountPointsCache, h]

/-- The mtab parse preserves the fstab validity flag. -/
theorem updateMtab_fstabValid (env : MountEnv) (c : FstabHandling) :
    (_k_updateMtabMountPointsCache env c).m_fstabCacheValid = c.m_fstabCacheValid := by
  by_cases h : c.m_mtabCacheValid = true <;>
    simp [_k_updateMtabMountPointsCache, h, foldl_insertMtab_fstabValid]

/-- The fstab parse preserves the mtab validity flag. -/
theorem updateFstab_mtabValid (env : MountEnv) (c : FstabHandling) :
    (_k_updateFstabMountPointsCache env c).m_mtabCacheValid = c.m_mtabCacheValid := by
  by_cases h : c.m_fstabCacheValid = true <;>
    simp [_k_updateFstabMountPointsCache, h, foldl_insertFstab_mtabValid]

/-- The mtab parse preserves the fstab mountpoint cache. -/
theorem updateMtab_fstabCache (env : MountEnv) (c : FstabHandling) :
    (_k_updateMtabMountPointsCache env c).m_fstabCache = c.m_fstabCache := by
  by_cases h : c.m_mtabCacheValid = true <;>
    simp [_k_updateMtabMountPointsCache, h, foldl_insertMtab_fstabCache]

/-- The fstab parse loop appends exactly the retained entries to the
fstab mountpoint cache, keyed by their device name. -/
theorem foldl_fstab_cache (l : List FstabEntry) :
    ∀ c : FstabHandling,
      (l.foldl (fun acc e => insertFstabEntry e acc) c).m_fstabCache
        = c.m_fstabCache
          ++ (l.filter keepFstabEntry).map (fun e => (fstabDevice e, e.mountpoint)) := by
  induction l with
  | nil => intro c; simp
  | cons e rest ih =>
      intro c
      simp only [List.foldl_cons]
      rw [ih]
      by_cases hk : keepFstabEntry e = true <;>
        simp [insertFstabEntry, hk, multiInsert, List.filter_cons,
          List.append_assoc, List.singleton_append]

/-- The mtab parse loop appends exactly the retained entries to the mtab
mountpoint cache, keyed by their device name. -/
theorem foldl_mtab_cache (l : List MtabEntry) :
    ∀ c : FstabHandling,
      (l.foldl (fun acc e => insertMtabEntry e acc) c).m_mtabCache
        = c.m_mtabCache
          ++ (l.filter keepMtabEntry).map (fun e => (mtabDevice e, e.mountpoint)) := by
  induction l with
  | nil => intro c; simp
  | cons e rest ih =>
      intro c
      simp only [List.foldl_cons]
      rw [ih]
      by_cases hk : keepMtabEntry e = true <;>
        simp [insertMtabEntry, hk, multiInsert, List.filter_cons,
          List.append_assoc, List.singleton_append]

/-- Looking up a key other than the inserted one is unchanged by a
replacing insert; the underlying search also ignores the erased bindings
of the inserted key. -/
theorem find_filter_ne (d k : String) (m : List (String × String)) (h : ¬(k = d)) :
    (m.filter (fun p => !(p.1 == k))).find? (fun p => p.1 == d)
      = m.find? (fun p => p.1 == d) := by
  induction m with
  | nil => rfl
  | cons a m ih =>
      by_cases hak : a.1 = k
      · have had : (k == d) = false := by
          simp only [beq_eq_false_iff_ne]
          exact h
        simp [List.filter_cons, hak, List.find?_cons, had, ih]
      · by_cases had : a.1 = d
        · have hdk : ¬(d = k) := fun hdk => h hdk.symm
          simp [List.filter_cons, hak, List.find?_cons, had, hdk]
        · simp [List.filter_cons, hak, List.find?_cons, had, ih]

/-- `mapValue` at a different key is unchanged by `mapInsert`. -/
theorem mapValue_mapInsert_ne (k v d : String) (m : List (String × String))
    (h : ¬(k = d)) :
    mapValue d (mapInsert k v m) = mapValue d m := by
  have hk : (k == d) = false := by
    simp only [beq_eq_false_iff_ne]
    exact h
  simp [mapValue, mapInsert, List.find?_cons, hk, find_filter_ne d k m h]

/-- If no retained fstab entry maps to device `d`, the parse loop leaves
the fstype binding of `d` untouched. -/
theorem foldl_fstab_fstype_ne (d : String) (l : List FstabEntry) :
    ∀ c : FstabHandling, (∀ e ∈ l, keepFstabEntry e = true → ¬(fstabDevice e = d)) →
      mapValue d (l.foldl (fun acc e => insertFstabEntry e acc) c).m_fstabFstypeCache
        = mapValue d c.m_fstabFstypeCache := by
  induction l with
  | nil => intro c _; rfl
  | cons e rest ih =>
      intro c hl
      rw [List.foldl_cons,
        ih _ (fun x hx hkx => hl x (List.mem_cons_of_mem _ hx) hkx)]
      by_cases hk : keepFstabEntry e = true
      · have hne := hl e (List.mem_cons_self _ _) hk
        simp [insertFstabEntry, hk, mapValue_mapInsert_ne _ _ _ _ hne]
      · simp [insertFstabEntry, hk]

/-- If no retained mtab entry maps to device `d`, the parse loop leaves
the fstype binding of `d` untouched. -/
theorem foldl_mtab_fstype_ne (d : String) (l : List MtabEntry) :
    ∀ c : FstabHandling, (∀ e ∈ l, keepMtabEntry e = true → ¬(mtabDevice e = d)) →
      mapValue d (l.foldl (fun acc e => insertMtabEntry e acc) c).m_fstabFstypeCache
        = mapValue d c.m_fstabFstypeCache := by
  induction l with
  | nil => intro c _; rfl
  | cons e rest ih =>
      intro c hl
      rw [List.foldl_cons,
        ih _ (fun x hx hkx => hl x (List.mem_cons_of_mem _ hx) hkx)]
      by_cases hk : keepMtabEntry e = true
      · have hne := hl e (List.mem_cons_self _ _) hk
        simp [insertMtabEntry, hk, mapValue_mapInsert_ne _ _ _ _ hne]
      · simp [insertMtabEntry, hk]

/-- Membership survives duplicate removal. -/
theorem mem_removeDuplicates_of_mem (n : Nat) :
    ∀ (l : List String), l.length ≤ n → ∀ x ∈ l, x ∈ removeDuplicates l := by
  induction n with
  | zero =>
      intro l hl x hx
      rw [Nat.le_zero, List.length_eq_zero] at hl
      subst hl
      cases hx
  | succ n ih =>
      intro l hl x hx
      match l with
      | [] => cases hx
      | y :: ys =>
          simp only [removeDuplicates]
          rcases List.mem_cons.mp hx with rfl | hx2
          · exact List.mem_cons_self _ _
          · by_cases hxy : x = y
            · subst hxy
              exact List.mem_cons_self _ _
            · refine List.mem_cons_of_mem _ (ih _ ?_ x ?_)
              · exact le_trans (List.length_filter_le _ _)
                  (Nat.le_of_succ_le_succ hl)
              · refine List.mem_filter.mpr ⟨hx2, ?_⟩
                simp only [Bool.not_eq_true', beq_eq_false_iff_ne]
                exact hxy

/-- A binding in a multimap shows up among the values of its key. -/
theorem mem_multiValues (d v : String) (m : List (String × String))
    (h : (d, v) ∈ m) : v ∈ multiValues d m := by
  refine List.mem_map.mpr ⟨(d, v), List.mem_filter.mpr ⟨h, ?_⟩, rfl⟩
  simp

end Fstab

namespace Fstab

/-- An invalid fstab cache is rebuilt to exactly the retained entries. -/
theorem updateFstab_parse (env : MountEnv) (c : FstabHandling)
    (h : c.m_fstabCacheValid = false) :
    (_k_updateFstabMountPointsCache env c).m_fstabCache
      = (env.fstab.filter keepFstabEntry).map (fun e => (fstabDevice e, e.mountpoint)) := by
  simp only [_k_updateFstabMountPointsCache, h, Bool.false_eq_true, if_false]
  rw [foldl_fstab_cache]
  simp

/-- An invalid mtab cache is rebuilt to exactly the retained entries. -/
theorem updateMtab_parse (env : MountEnv) (c : FstabHandling)
    (h : c.m_mtabCacheValid = false) :
    (_k_updateMtabMountPointsCache env c).m_mtabCache
      = (env.mtab.filter keepMtabEntry).map (fun e => (mtabDevice e, e.mountpoint)) := by
  simp only [_k_updateMtabMountPointsCache, h, Bool.false_eq_true, if_false]
  rw [foldl_mtab_cache]
  simp

/-- Whether or not it re-parses, the fstab update leaves the fstype
binding of a device no retained entry maps to untouched. -/
theorem updateFstab_fstype_stale (env : MountEnv) (c : FstabHandling) (d : String)
    (h2 : ∀ e ∈ env.fstab, keepFstabEntry e = true → ¬(fstabDevice e = d)) :
    mapValue d (_k_updateFstabMountPointsCache env c).m_fstabFstypeCache
      = mapValue d c.m_fstabFstypeCache := by
  cases hv : c.m_fstabCacheValid with
  | true => rw [updateFstab_noop _ _ hv]
  | false =>
      simp only [_k_updateFstabMountPointsCache, hv, Bool.false_eq_true, if_false]
      rw [foldl_fstab_fstype_ne d env.fstab _ h2]

/-- Whether or not it re-parses, the mtab update leaves the fstype
binding of a device no retained entry maps to untouched. -/
theorem updateMtab_fstype_stale (env : MountEnv) (c : FstabHandling) (d : String)
    (h3 : ∀ e ∈ env.mtab, keepMtabEntry e = true → ¬(mtabDevice e = d)) :
    mapValue d (_k_updateMtabMountPointsCache env c).m_fstabFstypeCache
      = mapValue d c.m_fstabFstypeCache := by
  cases hv : c.m_mtabCacheValid with
  | true => rw [updateMtab_noop _ _ hv]
  | false =>
      simp only [_k_updateMtabMountPointsCache, hv, Bool.false_eq_true, if_false]
      rw [foldl_mtab_fstype_ne d env.mtab _ h3]

/-- Repeating `mountPoints` changes nothing, whatever the files now say. -/
theorem mountPoints_stable (env env2 : MountEnv) (d : String) (c : FstabHandling) :
    mountPoints env2 d (mountPoints env d c).2 = mountPoints env d c := by
  have h1 : (_k_updateMtabMountPointsCache env
      (_k_updateFstabMountPointsCache env c)).m_fstabCacheValid = true := by
    rw [updateMtab_fstabValid, updateFstab_fstabValid]
  have h2 : (_k_updateMtabMountPointsCache env
      (_k_updateFstabMountPointsCache env c)).m_mtabCacheValid = true :=
    updateMtab_mtabValid _ _
  simp only [mountPoints]
  rw [updateFstab_noop _ _ h1, updateMtab_noop _ _ h2]

/-- Repeating `options` changes nothing, whatever the files now say. -/
theorem options_stable (env env2 : MountEnv) (d : String) (c : FstabHandling) :
    options env2 d (options env d c).2 = options env d c := by
  simp only [options]
  rw [updateFstab_noop _ _ (updateFstab_fstabValid env c)]

/-- Repeating `fstype` changes nothing, whatever the files now say. -/
theorem fstype_stable (env env2 : MountEnv) (d : String) (c : FstabHandling) :
    fstype env2 d (fstype env d c).2 = fstype env d c := by
  simp only [fstype]
  rw [updateFstab_noop _ _ (updateFstab_fstabValid env c)]

/-- Repeating `deviceList` changes nothing, whatever the files now say. -/
theorem deviceList_stable (env env2 : MountEnv) (c : FstabHandling) :
    deviceList env2 (deviceList env c).2 = deviceList env c := by
  have h1 : (_k_updateMtabMountPointsCache env
      (_k_updateFstabMountPointsCache env c)).m_fstabCacheValid = true := by
    rw [updateMtab_fstabValid, updateFstab_fstabValid]
  have h2 : (_k_updateMtabMountPointsCache env
      (_k_updateFstabMountPointsCache env c)).m_mtabCacheValid = true :=
    updateMtab_mtabValid _ _
  simp only [deviceList]
  rw [updateFstab_noop _ _ h1, updateMtab_noop _ _ h2]

/-- Repeating `currentMountPoints` changes nothing, whatever the files
now say. -/
theorem currentMountPoints_stable (env env2 : MountEnv) (d : String) (c : FstabHandling) :
    currentMountPoints env2 d (currentMountPoints env d c).2
      = currentMountPoints env d c := by
  simp only [currentMountPoints]
  rw [updateMtab_noop _ _ (updateMtab_mtabValid env c)]

/-- C8 counterexample: with the same share listed as `cifs` in the static
file and as `nfs` in the live table, two `fstype` queries separated only
by a `currentMountPoints` query — no flush anywhere — return different
results, because the mtab parse overwrites the shared fstype cache. -/
theorem c8_counterexample :
    (fstype envShared "//srv/share" initCache).1 = "cifs" ∧
    (fstype envShared "//srv/share"
        (currentMountPoints envShared "//srv/share"
          (fstype envShared "//srv/share" initCache).2).2).1 = "nfs" := by
  constructor <;> decide

/-- C8 (amended): each individual cache query is stable under immediate
repetition (whatever the underlying files say in between), once both
caches are valid every query leaves the cache object entirely unchanged,
and a query made after `flushFstabCache` triggers a full re-parse whose
results reflect an entry appended to the static file since the previous
parse.  (Between two `fstype` queries, an interleaved query that triggers
the first mtab parse can still change the reported type, since both
parsers write the shared fstype cache — see the counterexample.) -/
theorem c8_cache_valid_until_flush (env env2 : MountEnv) (d : String)
    (c : FstabHandling) (e : FstabEntry) :
    mountPoints env2 d (mountPoints env d c).2 = mountPoints env d c ∧
    options env2 d (options env d c).2 = options env d c ∧
    fstype env2 d (fstype env d c).2 = fstype env d c ∧
    deviceList env2 (deviceList env c).2 = deviceList env c ∧
    currentMountPoints env2 d (currentMountPoints env d c).2
      = currentMountPoints env d c ∧
    (c.m_fstabCacheValid = true → c.m_mtabCacheValid = true →
      (mountPoints env d c).2 = c ∧ (options env d c).2 = c ∧
        (fstype env d c).2 = c ∧ (deviceList env c).2 = c ∧
        (currentMountPoints env d c).2 = c) ∧
    (keepFstabEntry e = true → fstabDevice e = d →
      e.mountpoint ∈
        (mountPoints { env with fstab := env.fstab ++ [e] } d (flushFstabCache c)).1) := by
  refine ⟨mountPoints_stable env env2 d c, options_stable env env2 d c,
    fstype_stable env env2 d c, deviceList_stable env env2 c,
    currentMountPoints_stable env env2 d c, ?_, ?_⟩
  · intro hv1 hv2
    refine ⟨?_, ?_, ?_, ?_, ?_⟩
    · simp only [mountPoints]
      rw [updateFstab_noop _ _ hv1, updateMtab_noop _ _ hv2]
    · simp only [options]
      rw [updateFstab_noop _ _ hv1]
    · simp only [fstype]
      rw [updateFstab_noop _ _ hv1]
    · simp only [deviceList]
      rw [updateFstab_noop _ _ hv1, updateMtab_noop _ _ hv2]
    · simp only [currentMountPoints]
      rw [updateMtab_noop _ _ hv2]
  · intro hk hd
    have hparse : (_k_updateFstabMountPointsCache { env with fstab := env.fstab ++ [e] }
        (flushFstabCache c)).m_fstabCache
        = ((env.fstab ++ [e]).filter keepFstabEntry).map
            (fun x => (fstabDevice x, x.mountpoint)) :=
      updateFstab_parse { env with fstab := env.fstab ++ [e] } (flushFstabCache c) rfl
    have hmem : (d, e.mountpoint) ∈
        (_k_updateMtabMountPointsCache { env with fstab := env.fstab ++ [e] }
          (_k_updateFstabMountPointsCache { env with fstab := env.fstab ++ [e] }
            (flushFstabCache c))).m_fstabCache := by
      rw [updateMtab_fstabCache, hparse]
      refine List.mem_map.mpr ⟨e, List.mem_filter.mpr ⟨?_, hk⟩, ?_⟩
      · exact List.mem_append_right _ (List.mem_singleton.mpr rfl)
      · rw [hd]
    simp only [mountPoints]
    apply mem_removeDuplicates_of_mem _ _ le_rfl
    exact List.mem_append_left _ (mem_multiValues _ _ _ hmem)

/-- C8 witness: the stability and re-parse facts at a concrete cache,
device and appended nfs entry. -/
theorem c8_cache_valid_until_flush_witness :
    mountPoints envShared "remote2:/vol" (mountPoints envNfs "remote2:/vol" initCache).2
      = mountPoints envNfs "remote2:/vol" initCache ∧
    options envShared "remote2:/vol" (options envNfs "remote2:/vol" initCache).2
      = options envNfs "remote2:/vol" initCache ∧
    fstype envShared "remote2:/vol" (fstype envNfs "remote2:/vol" initCache).2
      = fstype envNfs "remote2:/vol" initCache ∧
    deviceList envShared (deviceList envNfs initCache).2 = deviceList envNfs initCache ∧
    currentMountPoints envShared "remote2:/vol"
        (currentMountPoints envNfs "remote2:/vol" initCache).2
      = currentMountPoints envNfs "remote2:/vol" initCache ∧
    (initCache.m_fstabCacheValid = true → initCache.m_mtabCacheValid = true →
      (mountPoints envNfs "remote2:/vol" initCache).2 = initCache ∧
        (options envNfs "remote2:/vol" initCache).2 = initCache ∧
        (fstype envNfs "remote2:/vol" initCache).2 = initCache ∧
        (deviceList envNfs initCache).2 = initCache ∧
        (currentMountPoints envNfs "remote2:/vol" initCache).2 = initCache) ∧
    (keepFstabEntry entryNfs2 = true → fstabDevice entryNfs2 = "remote2:/vol" →
      entryNfs2.mountpoint ∈
        (mountPoints { envNfs with fstab := envNfs.fstab ++ [entryNfs2] }
          "remote2:/vol" (flushFstabCache initCache)).1) :=
  c8_cache_valid_until_flush envNfs envShared "remote2:/vol" initCache entryNfs2

end Fstab

namespace Fstab

/-- C9 counterexample: a live mount-table entry whose source name starts
with "//" but whose filesystem type is outside the retained lists is
dropped by the mtab parse (the network check is called with an empty
source there), although the claim says any entry with a "//" source is
retained: the cache and the query result stay empty. -/
theorem c9_counterexample :
    strStartsWith "//srv/share" "//" = true ∧
    envSlashSlash.mtab =
      [{ fsname := "//srv/share", mountpoint := "/mnt/c", fstype := "ext4" }] ∧
    (_k_updateMtabMountPointsCache envSlashSlash initCache).m_mtabCache = [] ∧
    (currentMountPoints envSlashSlash "//srv/share" initCache).1 = [] := by
  refine ⟨by decide, rfl, by decide, by decide⟩

/-- C9 (amended): a parse retains exactly the entries passing its
retention test: for the static file the test is the one the claim states
(type nfs/nfs4/smbfs/cifs, or source starting with "//", or allow-listed
fuse.encfs/fuse.cryfs/overlay); for the live mount table the source name
is ignored (the code passes an empty source to the network check), so
only the two type lists decide retention.  The rebuilt caches are
exactly the retained entries keyed by their device name, so every other
entry is absent from all query results. -/
theorem c9_parse_retention (env : MountEnv) (c : FstabHandling)
    (h1 : c.m_fstabCacheValid = false) (h2 : c.m_mtabCacheValid = false) :
    (_k_updateFstabMountPointsCache env c).m_fstabCache
        = (env.fstab.filter keepFstabEntry).map
            (fun e => (fstabDevice e, e.mountpoint)) ∧
    (_k_updateMtabMountPointsCache env c).m_mtabCache
        = (env.mtab.filter keepMtabEntry).map
            (fun e => (mtabDevice e, e.mountpoint)) ∧
    (∀ e : FstabEntry, keepFstabEntry e
        = (_k_isFstabNetworkFileSystem e.fstype e.fsname
            || _k_isFstabSupportedLocalFileSystem e.fstype)) ∧
    (∀ e : MtabEntry, keepMtabEntry e
        = (_k_isFstabNetworkFileSystem e.fstype ""
            || _k_isFstabSupportedLocalFileSystem e.fstype)) :=
  ⟨updateFstab_parse env c h1, updateMtab_parse env c h2,
    fun _ => rfl, fun _ => rfl⟩

/-- C9 witness at the concrete shared-share environment. -/
theorem c9_parse_retention_witness :
    (_k_updateFstabMountPointsCache envShared initCache).m_fstabCache
        = (envShared.fstab.filter keepFstabEntry).map
            (fun e => (fstabDevice e, e.mountpoint)) ∧
    (_k_updateMtabMountPointsCache envShared initCache).m_mtabCache
        = (envShared.mtab.filter keepMtabEntry).map
            (fun e => (mtabDevice e, e.mountpoint)) ∧
    (∀ e : FstabEntry, keepFstabEntry e
        = (_k_isFstabNetworkFileSystem e.fstype e.fsname
            || _k_isFstabSupportedLocalFileSystem e.fstype)) ∧
    (∀ e : MtabEntry, keepMtabEntry e
        = (_k_isFstabNetworkFileSystem e.fstype ""
            || _k_isFstabSupportedLocalFileSystem e.fstype)) :=
  c9_parse_retention envShared initCache rfl rfl

/-- C10: the shared fstype cache is never cleared.  If no retained entry
of the current files maps to device `d`, then after `flushFstabCache`
and a `fstype` query (which does trigger a full fstab re-parse — the
resulting cache is valid again and holds exactly the current retained
entries) the query still returns the stale cached type `t`; the mtab
re-parse after `flushMtabCache` likewise leaves the stale binding. -/
theorem c10_fstype_cache_never_cleared (env : MountEnv) (c : FstabHandling)
    (d t : String)
    (h1 : mapValue d c.m_fstabFstypeCache = t)
    (h2 : ∀ e ∈ env.fstab, keepFstabEntry e = true → ¬(fstabDevice e = d))
    (h3 : ∀ e ∈ env.mtab, keepMtabEntry e = true → ¬(mtabDevice e = d)) :
    (fstype env d (flushFstabCache c)).1 = t ∧
    (fstype env d (flushFstabCache c)).2.m_fstabCacheValid = true ∧
    (fstype env d (flushFstabCache c)).2.m_fstabCache
      = (env.fstab.filter keepFstabEntry).map (fun e => (fstabDevice e, e.mountpoint)) ∧
    mapValue d (_k_updateMtabMountPointsCache env (flushMtabCache c)).m_fstabFstypeCache
      = t := by
  refine ⟨?_, ?_, ?_, ?_⟩
  · show mapValue d
        (_k_updateFstabMountPointsCache env (flushFstabCache c)).m_fstabFstypeCache = t
    rw [updateFstab_fstype_stale env _ d h2]
    exact h1
  · exact updateFstab_fstabValid env _
  · exact updateFstab_parse env _ rfl
  · rw [updateMtab_fstype_stale env _ d h3]
    exact h1

/-- C10 witness: after parsing an fstab holding the nfs entry, removing
the entry (empty files), flushing and re-parsing, `fstype` still answers
"nfs" for the vanished device. -/
theorem c10_fstype_cache_never_cleared_witness :
    mapValue "remote:/vol"
        ((fstype envNfs "remote:/vol" initCache).2).m_fstabFstypeCache = "nfs" ∧
    ((fstype envEmpty "remote:/vol"
        (flushFstabCache (fstype envNfs "remote:/vol" initCache).2)).1 = "nfs" ∧
      (fstype envEmpty "remote:/vol"
        (flushFstabCache (fstype envNfs "remote:/vol" initCache).2)).2.m_fstabCacheValid
          = true ∧
      (fstype envEmpty "remote:/vol"
        (flushFstabCache (fstype envNfs "remote:/vol" initCache).2)).2.m_fstabCache
          = (envEmpty.fstab.filter keepFstabEntry).map
              (fun e => (fstabDevice e, e.mountpoint)) ∧
      mapValue "remote:/vol"
        (_k_updateMtabMountPointsCache envEmpty
          (flushMtabCache (fstype envNfs "remote:/vol" initCache).2)).m_fstabFstypeCache
        = "nfs") :=
  ⟨by decide,
    c10_fstype_cache_never_cleared envEmpty (fstype envNfs "remote:/vol" initCache).2
      "remote:/vol" "nfs" (by decide) (by simp [envEmpty]) (by simp [envEmpty])⟩

end Fstab
